import Mathlib

/-!
# mapa.js: route batches, stop markers and the render cycle

A shallow embedding of `mapa.js` (the Leaflet/GraphHopper glue of ColectivosUML).

* Stops are two-element arrays `[lat, lng]`; the coordinate type `α` is abstract because
  the script never computes with coordinates, it only moves them around.
* Every side effect of the script (overlay mutation, console output, network request,
  host notification) is an `Evento`; a function with side effects returns the list of
  events it performs, in program order.
* The browser is a parameter (`Entorno`): the credential, the host object, `JSON.parse`,
  the answers of the routing service and the order in which the pending fetches settle.
-/

namespace Mapa

/-! ## Data model -/

/-- Stop coordinate `[lat, lng]`, latitude first (the order Leaflet uses). -/
abbrev Parada (α : Type) := α × α

/-- One entry of the parsed options array: a list of segments, each a list of stops.
`none` stands for a `null` entry, which `dibujarMarcadoresDeParadas` tests for. -/
abbrev Opcion (α : Type) := Option (List (List (Parada α)))

/-- Which of the three marker constructions of `dibujarMarcadoresDeParadas` was used:
`L.marker` with `iconOrigen`, `L.marker` with `iconDestino`, or `L.circleMarker` with
`estiloIntermedio`. -/
inductive ClaseMarcador where
  | origen
  | destino
  | intermedia
deriving DecidableEq

/-- Polyline style object built in `obtenerPromesasDeRuta`. `opacity` is kept in tenths
(`8` is the literal `0.8`). -/
structure Estilo where
  color : String
  weight : Nat
  opacity : Nat
deriving DecidableEq

/-- Body of the POST request sent to the routing service, together with its URL. -/
structure Peticion (α : Type) where
  url : String
  points : List (α × α)
  vehicle : String
  locale : String
  points_encoded : Bool
deriving DecidableEq

/-- JSON body of a routing answer, as far as the script reads it: `message` and, for
each entry of `paths`, its `points.coordinates`. -/
structure Cuerpo (α : Type) where
  message : Option String
  paths : Option (List (List (α × α)))
deriving DecidableEq

/-- What `fetch` and `response.json()` can do for one request. -/
inductive Respuesta (α : Type) where
  /-- The promise of `fetch` rejects with an error carrying this message. -/
  | rechazo (mensaje : String)
  /-- A response arrives with `response.ok = ok`; reading its body either rejects
  (`Except.error`) or yields the parsed body. -/
  | http (ok : Bool) (json : Except String (Cuerpo α))

/-- Value of a fulfilled `fetchLoteDeRuta` promise: `{ coords, estilo }`. -/
structure RutaObtenida (α : Type) where
  coords : List (Parada α)
  estilo : Estilo
deriving DecidableEq

/-- Outcome of one batch fetch: `Except.ok` is a fulfilled promise, `Except.error` a
rejected one whose reason has the given `message`. -/
abbrev Resultado (α : Type) := Except String (RutaObtenida α)

/-- One call `fetchLoteDeRuta(loteDeParadas, estilo, apiKey)`. -/
structure Llamada (α : Type) where
  loteDeParadas : List (Parada α)
  estilo : Estilo
  apiKey : String
deriving DecidableEq

/-- Observable side effects of the script. -/
inductive Evento (α : Type) where
  /-- The call `mapLoaderOverlay.classList.add('visible')`. -/
  | cargadorVisible
  /-- The call `capaDeRuta.clearLayers()`. -/
  | clearLayers
  /-- A marker added to `capaDeRuta` with its popup text. -/
  | marcador (clase : ClaseMarcador) (parada : Parada α) (textoPopup : String)
  /-- The call `map.fitBounds(allBounds)`. -/
  | fitBounds (allBounds : List (Parada α))
  /-- A network request issued through `fetch`. -/
  | fetch (peticion : Peticion α)
  /-- The call `L.polyline(coords, estilo).addTo(capaDeRuta)`. -/
  | polyline (coords : List (Parada α)) (estilo : Estilo)
  /-- A call of `console.log`. -/
  | consoleLog (mensaje : String)
  /-- A call of `console.error`. -/
  | consoleError (mensaje : String)
  /-- The call `mapLoaderOverlay.classList.remove('visible')`. -/
  | cargadorOculto
  /-- The call `window.javaApp.notificarMapaTerminado()`. -/
  | notificarMapaTerminado
deriving DecidableEq

/-! ## Array helpers -/

/-- The method `Array.prototype.slice(inicio, fin)` for non-negative bounds. -/
def slice {β : Type} (xs : List β) (inicio fin : Nat) : List β :=
  (xs.drop inicio).take (fin - inicio)

/-- The method `Array.prototype.forEach((x, index) => ...)`, collecting what the callback emits;
`desde` is the index of the head of the list. -/
def forEachDesde {β ε : Type} (f : β → Nat → List ε) : Nat → List β → List ε
  | _, [] => []
  | desde, x :: xs => f x desde ++ forEachDesde f (desde + 1) xs

/-- JavaScript truthiness of a value that is either `undefined`/`null` or a string. -/
def esVerdadero (s : Option String) : Bool :=
  match s with
  | none => false
  | some t => t != ""

/-- The expression `a || porDefecto` for an optional string `a`. -/
def oSiNo (a : Option String) (porDefecto : String) : String :=
  match a with
  | none => porDefecto
  | some t => if t = "" then porDefecto else t

/-! ## dibujarMarcadoresDeParadas -/

/-- Body of the inner `forEach` of `dibujarMarcadoresDeParadas`: the marker for the stop
at position `index` of a flattened list of `total` stops of option `opIndex`. -/
def marcadorDeParada {α : Type} (opIndex total : Nat) (parada : Parada α) (index : Nat) :
    Evento α :=
  if index = 0 then
    .marcador .origen parada s!"Opción {opIndex + 1} - Origen"
  else if (index : Int) = (total : Int) - 1 then
    .marcador .destino parada s!"Opción {opIndex + 1} - Destino"
  else
    .marcador .intermedia parada s!"Opción {opIndex + 1} - Parada {index + 1}"

/-- Body of the outer `forEach` of `dibujarMarcadoresDeParadas` for one option: the
markers added to the overlay and the points pushed to `allBounds`. -/
def marcadoresDeOpcion {α : Type} (opcion : Opcion α) (opIndex : Nat) :
    List (Evento α) × List (Parada α) :=
  match opcion with
  | none => ([], [])
  | some segmentos =>
    if segmentos.length = 0 then ([], [])
    else
      let paradasDeEstaOpcion := segmentos.flatten
      if paradasDeEstaOpcion.length = 0 then ([], [])
      else
        (forEachDesde
            (fun parada index =>
              [marcadorDeParada opIndex paradasDeEstaOpcion.length parada index])
            0 paradasDeEstaOpcion,
          paradasDeEstaOpcion)

/-- The outer `forEach` of `dibujarMarcadoresDeParadas`, `opIndex` being the index of
the head of `opciones`. -/
def dibujarMarcadoresDesde {α : Type} :
    Nat → List (Opcion α) → List (Evento α) × List (Parada α)
  | _, [] => ([], [])
  | opIndex, opcion :: resto =>
    let estaOpcion := marcadoresDeOpcion opcion opIndex
    let lasDemas := dibujarMarcadoresDesde (opIndex + 1) resto
    (estaOpcion.1 ++ lasDemas.1, estaOpcion.2 ++ lasDemas.2)

/-- The function `dibujarMarcadoresDeParadas(opciones)`: the markers it adds to the overlay, in
order, and the array `allBounds` it returns. -/
def dibujarMarcadoresDeParadas {α : Type} (opciones : List (Opcion α)) :
    List (Evento α) × List (Parada α) :=
  dibujarMarcadoresDesde 0 opciones

/-- The flattened stop list of an option, `opcion.flat()`; a `null` option has no stops. -/
def paradasDeOpcion {α : Type} (opcion : Opcion α) : List (Parada α) :=
  match opcion with
  | none => []
  | some segmentos => segmentos.flatten

/-- Marker class of the stop at position `index` among `total` flattened stops, in the
order the marker code tests: position `0` is the origin, otherwise the last position is
the destination, and the rest are intermediate. -/
def claseDePosicion (total index : Nat) : ClaseMarcador :=
  if index = 0 then .origen else if index + 1 = total then .destino else .intermedia

/-! ## fetchLoteDeRuta -/

/-- The arrow function `p => [p[1], p[0]]`, used both on the way out (`ghPoints`) and
on the way back (`leafletCoords`). -/
def invertir {α : Type} (p : α × α) : α × α := (p.2, p.1)

/-- The request `fetchLoteDeRuta` sends: points longitude-first, fixed vehicle and
locale, unencoded geometry, credential in the query string. -/
def peticionDeLote {α : Type} (loteDeParadas : List (Parada α)) (apiKey : String) :
    Peticion α :=
  { url := "https://graphhopper.com/api/1/route?key=" ++ apiKey
    points := loteDeParadas.map invertir
    vehicle := "car"
    locale := "es"
    points_encoded := false }

/-- The function `fetchLoteDeRuta(loteDeParadas, estilo, apiKey)`: how its promise settles when the
network answers the request with `fetch`. -/
def fetchLoteDeRuta {α : Type} (loteDeParadas : List (Parada α)) (estilo : Estilo)
    (apiKey : String) (fetch : Peticion α → Respuesta α) : Resultado α :=
  match fetch (peticionDeLote loteDeParadas apiKey) with
  | .rechazo mensaje => .error mensaje
  | .http false (.error mensaje) => .error mensaje
  | .http false (.ok err) =>
    .error (oSiNo err.message "Error de red al contactar GraphHopper")
  | .http true (.error mensaje) => .error mensaje
  | .http true (.ok data) =>
    match data.paths with
    | none =>
      .error (oSiNo data.message "No se encontró una ruta válida en la respuesta de GraphHopper")
    | some [] =>
      .error (oSiNo data.message "No se encontró una ruta válida en la respuesta de GraphHopper")
    | some (primera :: _) => .ok { coords := primera.map invertir, estilo := estilo }

/-! ## obtenerPromesasDeRuta -/

/-- The constant `MAX_PUNTOS_POR_LOTE`. -/
def MAX_PUNTOS_POR_LOTE : Nat := 5

/-- The inner `for` loop of `obtenerPromesasDeRuta`, from loop variable `i`, giving the
batches passed to `fetchLoteDeRuta` in order. The first argument bounds the number of
iterations (`bucleLotes_combustible` shows that the list length is always enough). -/
def bucleLotes {β : Type} (paradasParaRutear : List β) : Nat → Nat → List (List β)
  | 0, _ => []
  | combustible + 1, i =>
    if (i : Int) < (paradasParaRutear.length : Int) - 1 then
      let loteDeParadas := slice paradasParaRutear i (i + MAX_PUNTOS_POR_LOTE)
      if loteDeParadas.length < 2 then
        bucleLotes paradasParaRutear combustible (i + (MAX_PUNTOS_POR_LOTE - 1))
      else
        loteDeParadas ::
          bucleLotes paradasParaRutear combustible (i + (MAX_PUNTOS_POR_LOTE - 1))
    else []

/-- The batches `obtenerPromesasDeRuta` builds from one flattened stop list: nothing
below two stops (the `continue`), otherwise the loop from `i = 0`. -/
def lotesDeParadas {β : Type} (paradasParaRutear : List β) : List (List β) :=
  if paradasParaRutear.length < 2 then []
  else bucleLotes paradasParaRutear paradasParaRutear.length 0

/-- The `estilo` object of the option at index `opIndex`. -/
def estiloDeOpcion (opIndex : Nat) : Estilo :=
  { color := if opIndex = 0 then "#0000FF" else "#808080"
    weight := 6
    opacity := if opIndex = 0 then 8 else 6 }

/-- One iteration of the outer loop of `obtenerPromesasDeRuta`: the calls to
`fetchLoteDeRuta` made for the (non-null) option at index `opIndex`. -/
def llamadasDeOpcion {α : Type} (apiKey : String) (opIndex : Nat)
    (opcion : List (List (Parada α))) : List (Llamada α) :=
  let estilo := estiloDeOpcion opIndex
  let paradasParaRutear := opcion.flatten
  (lotesDeParadas paradasParaRutear).map
    (fun loteDeParadas => { loteDeParadas := loteDeParadas, estilo := estilo, apiKey := apiKey })

/-- The outer loop of `obtenerPromesasDeRuta` from option index `opIndex`, with the
calls made so far. A `null` option makes `opcion.flat()` throw: the result is then
`Except.error` with the calls that had already been made. -/
def obtenerPromesasDesde {α : Type} (apiKey : String) :
    Nat → List (Opcion α) → List (Llamada α) → Except (List (Llamada α)) (List (Llamada α))
  | _, [], promesasDeLotes => .ok promesasDeLotes
  | _, none :: _, promesasDeLotes => .error promesasDeLotes
  | opIndex, some opcion :: resto, promesasDeLotes =>
    obtenerPromesasDesde apiKey (opIndex + 1) resto
      (promesasDeLotes ++ llamadasDeOpcion apiKey opIndex opcion)

/-- The function `obtenerPromesasDeRuta(opciones, apiKey)`: the calls to `fetchLoteDeRuta`, one per
returned promise, in order. -/
def obtenerPromesasDeRuta {α : Type} (opciones : List (Opcion α)) (apiKey : String) :
    Except (List (Llamada α)) (List (Llamada α)) :=
  obtenerPromesasDesde apiKey 0 opciones []

/-- The calls to `fetchLoteDeRuta` that were made, whether `obtenerPromesasDeRuta`
returned its array or threw on the way. -/
def llamadasHechas {α : Type} (r : Except (List (Llamada α)) (List (Llamada α))) :
    List (Llamada α) :=
  match r with
  | .ok promesasDeLotes => promesasDeLotes
  | .error hechas => hechas

/-- Join batches back into one stop list: the first batch whole, every later batch
without its first point. -/
def unirLotes {β : Type} : List (List β) → List β
  | [] => []
  | primero :: resto => primero ++ (resto.map (List.drop 1)).flatten

/-! ## Promise.allSettled -/

/-- State of a pending `Promise.allSettled` call: one result slot per input promise,
filled when that promise settles, and the number of input promises still pending. -/
structure EstadoAllSettled (ρ : Type) where
  valores : List (Option ρ)
  restantes : Nat
deriving DecidableEq

/-- State of `Promise.allSettled` right after it was called on `n` promises. -/
def allSettledInicial {ρ : Type} (n : Nat) : EstadoAllSettled ρ :=
  { valores := List.replicate n none, restantes := n }

/-- The reaction `Promise.allSettled` attaches to input promise number `indice`: when
that promise settles with `r` the outcome is stored in slot `indice` and the counter
goes down. A promise settles once, so a filled slot is left alone. -/
def alAsentarse {ρ : Type} (st : EstadoAllSettled ρ) (indice : Nat) (r : ρ) :
    EstadoAllSettled ρ :=
  match st.valores[indice]? with
  | some none => { valores := st.valores.set indice (some r), restantes := st.restantes - 1 }
  | _ => st

/-- The reaction of `Promise.allSettled` to the settling of input promise `k`, whose
outcome is `promesas[k]`; an index outside the array belongs to no input promise. -/
def pasoAllSettled {ρ : Type} (promesas : List ρ) (st : EstadoAllSettled ρ) (k : Nat) :
    EstadoAllSettled ρ :=
  match promesas[k]? with
  | some r => alAsentarse st k r
  | none => st

/-- The runtime function `Promise.allSettled(promesas)`, where input promise `k` settles
with outcome `promesas[k]` and the promises settle in the order `orden` (a list of
indices). The result is the array the combined promise is fulfilled with, or `none`
when some input promise never settles and the combined promise stays pending. -/
def allSettled {ρ : Type} (promesas : List ρ) (orden : List Nat) : Option (List ρ) :=
  let final := orden.foldl (pasoAllSettled promesas) (allSettledInicial promesas.length)
  if final.restantes = 0 then some (final.valores.filterMap id) else none

/-- Invariant of a pending `Promise.allSettled`: after the promises in `S` have settled,
exactly their slots are filled, each with the outcome of its own promise, and the counter
is the number of promises not yet settled. -/
def InvAllSettled {ρ : Type} (promesas : List ρ) (st : EstadoAllSettled ρ) (S : Finset Nat) :
    Prop :=
  st.valores.length = promesas.length ∧
    (∀ i, i < promesas.length → st.valores[i]? = some (if i ∈ S then promesas[i]? else none)) ∧
    st.restantes = (Finset.range promesas.length \ S).card

/-! ## dibujarRutasDeColectivo -/

/-- Everything of the browser that `dibujarRutasDeColectivo` depends on. -/
structure Entorno (α : Type) where
  /-- The global `window.GH_API_KEY`; `none` when it is not defined. -/
  GH_API_KEY : Option String
  /-- Whether `window.javaApp` is set (a host is registered). -/
  javaApp : Bool
  /-- The function `JSON.parse` on the payload: the message of the error it throws, or
  the parsed value, `none` being `null`. -/
  JSON_parse : String → Except String (Option (List (Opcion α)))
  /-- What the network does with the request of fetch number `k` of this cycle. -/
  red : Nat → Peticion α → Respuesta α
  /-- Order in which the fetch promises of this cycle settle, as indices into
  `promesasDeLotes`; an index that is missing is a promise that never settles. -/
  orden : List Nat

/-- How a promise stands. -/
inductive EstadoPromesa where
  | cumplida
  | rechazada (mensaje : String)
  | pendiente
deriving DecidableEq

/-- How control leaves the `try` block. -/
inductive Salida where
  | normal
  | lanzado (mensaje : String)
  | pendiente
deriving DecidableEq

/-- What a call of `dibujarRutasDeColectivo` does: its side effects in order and the
state its returned promise ends in. -/
structure Ejecucion (α : Type) where
  eventos : List (Evento α)
  estado : EstadoPromesa

/-- Message of the `TypeError` thrown by `opcion.flat()` on a `null` option. -/
def mensajeTypeErrorFlat : String := "TypeError: opcion.flat"

/-- The outcomes of the promises in `promesasDeLotes`: call number `k` settles the way
`fetchLoteDeRuta` does on the answer of the network to request number `k`. -/
def resultadosDeLlamadas {α : Type} (red : Nat → Peticion α → Respuesta α) :
    Nat → List (Llamada α) → List (Resultado α)
  | _, [] => []
  | k, c :: resto =>
    fetchLoteDeRuta c.loteDeParadas c.estilo c.apiKey (red k) ::
      resultadosDeLlamadas red (k + 1) resto

/-- The network requests issued by the calls to `fetchLoteDeRuta`: each call runs up
to its `await fetch(...)` as soon as it is made. -/
def peticionesDeLlamadas {α : Type} (llamadas : List (Llamada α)) : List (Evento α) :=
  llamadas.map (fun c => .fetch (peticionDeLote c.loteDeParadas c.apiKey))

/-- Body of `resultados.forEach`: draw a fulfilled result, report a rejected one. -/
def dibujarResultado {α : Type} (resultado : Resultado α) : Evento α :=
  match resultado with
  | .ok valor => .polyline valor.coords valor.estilo
  | .error mensaje =>
    .consoleError ("Lote de ruta fallido: " ++ oSiNo (some mensaje) "Error desconocido")

/-- Step 4 of `dibujarRutasDeColectivo`: `resultados.forEach(...)`. -/
def dibujarResultados {α : Type} (resultados : List (Resultado α)) : List (Evento α) :=
  resultados.map dibujarResultado

/-- The expression `opciones && opciones.length > 0`. -/
def hayOpciones {α : Type} (opciones : Option (List (Opcion α))) : Bool :=
  match opciones with
  | none => false
  | some os => decide (os.length > 0)

/-- The `try` block of `dibujarRutasDeColectivo`: its side effects and how it ends. -/
def bloqueTry {α : Type} (env : Entorno α) (opcionesDeRutaString : String) :
    List (Evento α) × Salida :=
  let inicio : List (Evento α) := [.cargadorVisible, .clearLayers]
  match env.JSON_parse opcionesDeRutaString with
  | .error mensaje => (inicio, .lanzado mensaje)
  | .ok opciones =>
    let sonEntradasValidas := esVerdadero env.GH_API_KEY && hayOpciones opciones
    if sonEntradasValidas then
      let marcadores := dibujarMarcadoresDeParadas (opciones.getD [])
      let ajuste : List (Evento α) :=
        if marcadores.2.length > 0 then [.fitBounds marcadores.2] else []
      match obtenerPromesasDeRuta (opciones.getD []) (env.GH_API_KEY.getD "") with
      | .error emitidas =>
        (inicio ++ marcadores.1 ++ ajuste ++ peticionesDeLlamadas emitidas,
          .lanzado mensajeTypeErrorFlat)
      | .ok promesasDeLotes =>
        let previo := inicio ++ marcadores.1 ++ ajuste ++ peticionesDeLlamadas promesasDeLotes
        if promesasDeLotes.length = 0 then
          (previo ++ [.consoleLog "No hay lotes de rutas para procesar."], .normal)
        else
          match allSettled (resultadosDeLlamadas env.red 0 promesasDeLotes) env.orden with
          | none => (previo, .pendiente)
          | some resultados => (previo ++ dibujarResultados resultados, .normal)
    else
      (inicio
          ++ (if !esVerdadero env.GH_API_KEY then
                [.consoleError "No se encontró GH_API_KEY."] else [])
          ++ (if !hayOpciones opciones then
                [.consoleLog "No se encontraron opciones de ruta válidas."] else []),
        .normal)

/-- The `finally` block of `dibujarRutasDeColectivo`. -/
def bloqueFinally {α : Type} (env : Entorno α) : List (Evento α) :=
  .cargadorOculto :: (if env.javaApp then [.notificarMapaTerminado] else [])

/-- The function `dibujarRutasDeColectivo(opcionesDeRutaString)` run in `env`. -/
def dibujarRutasDeColectivo {α : Type} (env : Entorno α) (opcionesDeRutaString : String) :
    Ejecucion α :=
  match bloqueTry env opcionesDeRutaString with
  | (eventos, .normal) => { eventos := eventos ++ bloqueFinally env, estado := .cumplida }
  | (eventos, .lanzado mensaje) =>
    { eventos :=
        eventos
          ++ [.consoleError ("Error general al procesar rutas de colectivo: " ++ mensaje)]
          ++ bloqueFinally env
      estado := .cumplida }
  | (eventos, .pendiente) => { eventos := eventos, estado := .pendiente }

/-- Side effects of a render cycle with valid inputs up to the point where it awaits
`Promise.allSettled`: loader, cleared overlay, markers, viewport fit, requests. -/
def antesDeEsperar {α : Type} (opciones : List (Opcion α)) (promesasDeLotes : List (Llamada α)) :
    List (Evento α) :=
  [.cargadorVisible, .clearLayers] ++ (dibujarMarcadoresDeParadas opciones).1
    ++ (if (dibujarMarcadoresDeParadas opciones).2.length > 0
        then [.fitBounds (dibujarMarcadoresDeParadas opciones).2] else [])
    ++ peticionesDeLlamadas promesasDeLotes

/-! ## Reading a trace -/

/-- The polylines drawn in a trace, in order. -/
def polilineas {α : Type} (eventos : List (Evento α)) : List (RutaObtenida α) :=
  eventos.filterMap (fun e =>
    match e with
    | .polyline coords estilo => some { coords := coords, estilo := estilo }
    | _ => none)

/-- The markers placed in a trace, in order: class and position. -/
def marcadores {α : Type} (eventos : List (Evento α)) : List (ClaseMarcador × Parada α) :=
  eventos.filterMap (fun e =>
    match e with
    | .marcador clase parada _ => some (clase, parada)
    | _ => none)

/-- The network requests issued in a trace, in order. -/
def peticiones {α : Type} (eventos : List (Evento α)) : List (Peticion α) :=
  eventos.filterMap (fun e =>
    match e with
    | .fetch peticion => some peticion
    | _ => none)

/-- The messages written with `console.error` in a trace, in order. -/
def erroresDeConsola {α : Type} (eventos : List (Evento α)) : List String :=
  eventos.filterMap (fun e =>
    match e with
    | .consoleError mensaje => some mensaje
    | _ => none)

/-- How many times the host was notified in a trace. -/
def notificaciones {α : Type} (eventos : List (Evento α)) : Nat :=
  (eventos.filter (fun e =>
    match e with
    | .notificarMapaTerminado => true
    | _ => false)).length

/-- The fulfilled outcomes of a list of batch fetches, in list order. -/
def exitos {α : Type} (resultados : List (Resultado α)) : List (RutaObtenida α) :=
  resultados.filterMap (fun r =>
    match r with
    | .ok valor => some valor
    | .error _ => none)

/-- The failure reasons of a list of batch fetches, in list order. -/
def fallos {α : Type} (resultados : List (Resultado α)) : List String :=
  resultados.filterMap (fun r =>
    match r with
    | .ok _ => none
    | .error mensaje => some mensaje)

/-- The outcomes of a list of batch fetches taken in the order in which they settled. -/
def enOrdenDeAsentamiento {α : Type} (resultados : List (Resultado α)) (orden : List Nat) :
    List (Resultado α) :=
  orden.filterMap (fun k => resultados[k]?)

/-! ## Example inputs -/

/-- A routing service that answers every request with one path through exactly the
points it was sent. -/
def redEco : Nat → Peticion Int → Respuesta Int :=
  fun _ peticion => .http true (.ok { message := none, paths := some [peticion.points] })

/-- A routing service that echoes the first request and refuses every later one. -/
def redPrimeraSola : Nat → Peticion Int → Respuesta Int :=
  fun k peticion =>
    if k = 0 then .http true (.ok { message := none, paths := some [peticion.points] })
    else .http false (.ok { message := some "Too many points", paths := none })

/-- Example payload after parsing: two options of one two-stop segment each. -/
def opcionesDosLotes : List (Opcion Int) :=
  [some [[(1, 2), (3, 4)]], some [[(5, 6), (7, 8)]]]

/-- The call `obtenerPromesasDeRuta` makes for the first option of `opcionesDosLotes`. -/
def llamadaPrimerLote : Llamada Int :=
  { loteDeParadas := [(1, 2), (3, 4)], estilo := estiloDeOpcion 0, apiKey := "clave" }

/-- The call `obtenerPromesasDeRuta` makes for the second option of `opcionesDosLotes`. -/
def llamadaSegundoLote : Llamada Int :=
  { loteDeParadas := [(5, 6), (7, 8)], estilo := estiloDeOpcion 1, apiKey := "clave" }

/-- The two calls `obtenerPromesasDeRuta` makes for `opcionesDosLotes`. -/
def promesasDosLotes : List (Llamada Int) := [llamadaPrimerLote, llamadaSegundoLote]

/-- The route the echoing service returns for `llamadaPrimerLote`. -/
def rutaPrimerLote : RutaObtenida Int :=
  { coords := [(1, 2), (3, 4)], estilo := estiloDeOpcion 0 }

/-- The route the echoing service returns for `llamadaSegundoLote`. -/
def rutaSegundoLote : RutaObtenida Int :=
  { coords := [(5, 6), (7, 8)], estilo := estiloDeOpcion 1 }

/-- Example option: two segments of three stops each, six stops after flattening. -/
def opcionSeisParadas : List (List (Parada Int)) :=
  [[(0, 0), (1, 1), (2, 2)], [(3, 3), (4, 4), (5, 5)]]

/-- Example environment: credential and host present, two batches, the second fetch
settles before the first. -/
def entornoDosLotes : Entorno Int :=
  { GH_API_KEY := some "clave"
    javaApp := true
    JSON_parse := fun _ => .ok (some opcionesDosLotes)
    red := redEco
    orden := [1, 0] }

/-- Example environment: as `entornoDosLotes`, but the second batch fails. -/
def entornoExitoYFallo : Entorno Int :=
  { GH_API_KEY := some "clave"
    javaApp := true
    JSON_parse := fun _ => .ok (some opcionesDosLotes)
    red := redPrimeraSola
    orden := [1, 0] }

/-- Example environment: no credential, host present. -/
def entornoSinCredencial : Entorno Int :=
  { GH_API_KEY := none
    javaApp := true
    JSON_parse := fun _ => .ok (some opcionesDosLotes)
    red := redEco
    orden := [] }

/-- Example environment: the payload is not valid JSON. -/
def entornoJsonInvalido : Entorno Int :=
  { GH_API_KEY := some "clave"
    javaApp := true
    JSON_parse := fun _ => .error "Unexpected end of JSON input"
    red := redEco
    orden := [] }

/-! ## The batch loop -/

theorem length_slice {β : Type} (xs : List β) (i j : Nat) :
    (slice xs i j).length = min (j - i) (xs.length - i) := by
  simp [slice]

theorem bucleLotes_eq {β : Type} (ps : List β) :
    ∀ (combustible i : Nat), ps.length ≤ i + 4 * combustible + 1 →
      bucleLotes ps combustible i =
        (List.range ((ps.length + 2 - i) / 4)).map
          (fun k => slice ps (i + 4 * k) (i + 4 * k + 5)) := by
  intro combustible
  induction combustible with
  | zero =>
    intro i h
    have : (ps.length + 2 - i) / 4 = 0 := by omega
    simp [bucleLotes, this]
  | succ n ih =>
    intro i h
    unfold bucleLotes
    by_cases hi : (i : Int) < (ps.length : Int) - 1
    · have hlen : ¬ (slice ps i (i + MAX_PUNTOS_POR_LOTE)).length < 2 := by
        rw [length_slice]; simp only [MAX_PUNTOS_POR_LOTE]; omega
      have hn : (ps.length + 2 - i) / 4 = (ps.length + 2 - (i + 4)) / 4 + 1 := by omega
      simp only [hi, if_true, hlen, if_false]
      rw [show i + (MAX_PUNTOS_POR_LOTE - 1) = i + 4 from rfl, ih (i + 4) (by omega), hn,
        List.range_succ_eq_map]
      simp only [List.map_cons, List.map_map, MAX_PUNTOS_POR_LOTE]
      congr 1
      apply List.map_congr_left
      intro k _
      simp only [Function.comp, Nat.succ_eq_add_one]
      congr 1 <;> omega
    · have : (ps.length + 2 - i) / 4 = 0 := by omega
      simp [hi, this]

/-- Closed form of the batches of one flattened stop list. -/
theorem lotesDeParadas_eq {β : Type} (ps : List β) :
    lotesDeParadas ps =
      (List.range ((ps.length + 2) / 4)).map (fun k => slice ps (4 * k) (4 * k + 5)) := by
  unfold lotesDeParadas
  split
  · have : (ps.length + 2) / 4 = 0 := by omega
    simp [this]
  · rw [bucleLotes_eq ps ps.length 0 (by omega)]
    simp

/-- The list length is always enough iterations: more changes nothing. -/
theorem bucleLotes_combustible {β : Type} (ps : List β) (combustible : Nat)
    (h : ps.length ≤ combustible) :
    bucleLotes ps combustible 0 = bucleLotes ps ps.length 0 := by
  rw [bucleLotes_eq ps combustible 0 (by omega), bucleLotes_eq ps ps.length 0 (by omega)]

theorem techo_cuartos (L : Nat) (h : 2 ≤ L) : ⌈((L : ℚ) - 1) / 4⌉₊ = (L + 2) / 4 := by
  have h1 : 4 * ((L + 2) / 4) ≤ L + 2 := by omega
  have h2 : L + 2 < 4 * ((L + 2) / 4) + 4 := by omega
  have h3 : 1 ≤ (L + 2) / 4 := by omega
  generalize (L + 2) / 4 = n at h1 h2 h3
  rw [Nat.ceil_eq_iff (by omega)]
  have c1 : (4 * (n : ℚ)) ≤ (L : ℚ) + 2 := by exact_mod_cast h1
  have c2 : (L : ℚ) + 2 < 4 * (n : ℚ) + 4 := by exact_mod_cast h2
  have c3 : (L : ℚ) + 3 ≤ 4 * (n : ℚ) + 4 := by exact_mod_cast h2
  rw [Nat.cast_sub h3]
  push_cast
  constructor
  · linarith
  · linarith

theorem length_lotesDeParadas {β : Type} (ps : List β) :
    (lotesDeParadas ps).length = (ps.length + 2) / 4 := by
  rw [lotesDeParadas_eq]; simp

theorem length_llamadasDeOpcion {α : Type} (apiKey : String) (opIndex : Nat)
    (opcion : List (List (Parada α))) :
    (llamadasDeOpcion apiKey opIndex opcion).length = (opcion.flatten.length + 2) / 4 := by
  simp [llamadasDeOpcion, length_lotesDeParadas]

theorem obtenerPromesasDesde_some {α : Type} (apiKey : String)
    (opciones : List (List (List (Parada α)))) :
    ∀ (opIndex : Nat) (hechas : List (Llamada α)),
      obtenerPromesasDesde apiKey opIndex (opciones.map some) hechas =
        .ok (hechas ++ forEachDesde (fun opcion i => llamadasDeOpcion apiKey i opcion)
          opIndex opciones) := by
  induction opciones with
  | nil => intro opIndex hechas; simp [obtenerPromesasDesde, forEachDesde]
  | cons o resto ih =>
    intro opIndex hechas
    simp [obtenerPromesasDesde, forEachDesde, ih]

theorem length_forEachDesde_llamadas {α : Type} (apiKey : String)
    (opciones : List (List (List (Parada α)))) :
    ∀ (opIndex : Nat),
      (forEachDesde (fun opcion i => llamadasDeOpcion apiKey i opcion) opIndex opciones).length =
        (opciones.map (fun opcion => (opcion.flatten.length + 2) / 4)).sum := by
  induction opciones with
  | nil => intro opIndex; simp [forEachDesde]
  | cons o resto ih =>
    intro opIndex
    simp [forEachDesde, ih, length_llamadasDeOpcion]

/-- C1: in `obtenerPromesasDeRuta`, an option whose flattened stop list has length `L`
gets `ceil((L-1)/4)` calls to `fetchLoteDeRuta` when `L ≥ 2` and none when `L < 2`; for a
list of options the function returns the calls of all options one after the other, so
their number is the sum of these counts over the options. -/
theorem obtenerPromesasDeRuta_numero_de_lotes {α : Type}
    (opciones : List (List (List (Parada α)))) (apiKey : String) :
    (∀ (opIndex : Nat) (opcion : List (List (Parada α))),
        (llamadasDeOpcion apiKey opIndex opcion).length =
          if 2 ≤ opcion.flatten.length then ⌈((opcion.flatten.length : ℚ) - 1) / 4⌉₊ else 0) ∧
      ∃ promesasDeLotes : List (Llamada α),
        obtenerPromesasDeRuta (opciones.map some) apiKey = .ok promesasDeLotes ∧
        promesasDeLotes =
          forEachDesde (fun opcion i => llamadasDeOpcion apiKey i opcion) 0 opciones ∧
        promesasDeLotes.length =
          (opciones.map (fun opcion =>
            if 2 ≤ opcion.flatten.length then ⌈((opcion.flatten.length : ℚ) - 1) / 4⌉₊
            else 0)).sum := by
  have hcuenta : ∀ L : Nat,
      (L + 2) / 4 = if 2 ≤ L then ⌈((L : ℚ) - 1) / 4⌉₊ else 0 := by
    intro L
    split
    · rename_i h; rw [techo_cuartos L h]
    · omega
  refine ⟨?_, _, ?_, rfl, ?_⟩
  · intro opIndex opcion
    rw [length_llamadasDeOpcion, hcuenta]
  · unfold obtenerPromesasDeRuta
    rw [obtenerPromesasDesde_some]; simp
  · rw [length_forEachDesde_llamadas]
    congr 1
    apply List.map_congr_left
    intro o _
    exact hcuenta _

theorem slice_es_contiguo {β : Type} (xs : List β) (i j : Nat) :
    ∃ antes despues : List β, xs = antes ++ slice xs i j ++ despues := by
  refine ⟨xs.take i, (xs.drop i).drop (j - i), ?_⟩
  simp [slice, List.append_assoc]

theorem mem_lotesDeParadas {β : Type} (ps lote : List β) (h : lote ∈ lotesDeParadas ps) :
    (∃ antes despues : List β, ps = antes ++ lote ++ despues) ∧
      2 ≤ lote.length ∧ lote.length ≤ 5 := by
  rw [lotesDeParadas_eq] at h
  simp only [List.mem_map, List.mem_range] at h
  obtain ⟨k, hk, rfl⟩ := h
  refine ⟨slice_es_contiguo ps _ _, ?_, ?_⟩ <;> rw [length_slice] <;> omega

theorem mem_obtenerPromesasDesde {α : Type} (apiKey : String) :
    ∀ (opciones : List (Opcion α)) (opIndex : Nat) (hechas : List (Llamada α))
      (c : Llamada α),
      c ∈ llamadasHechas (obtenerPromesasDesde apiKey opIndex opciones hechas) →
        c ∈ hechas ∨ ∃ opcion, some opcion ∈ opciones ∧
          c.loteDeParadas ∈ lotesDeParadas opcion.flatten := by
  intro opciones
  induction opciones with
  | nil => intro opIndex hechas c h; left; simpa [obtenerPromesasDesde, llamadasHechas] using h
  | cons o resto ih =>
    intro opIndex hechas c h
    cases o with
    | none => left; simpa [obtenerPromesasDesde, llamadasHechas] using h
    | some opcion =>
      simp only [obtenerPromesasDesde] at h
      rcases ih _ _ c h with h1 | ⟨o2, ho2, hc⟩
      · rcases List.mem_append.mp h1 with h2 | h2
        · left; exact h2
        · right
          refine ⟨opcion, by simp, ?_⟩
          simp only [llamadasDeOpcion, List.mem_map] at h2
          obtain ⟨l, hl, rfl⟩ := h2
          exact hl
      · right; exact ⟨o2, by simp [ho2], hc⟩

/-- C2: for every options list, every batch `obtenerPromesasDeRuta` passes to
`fetchLoteDeRuta` is a contiguous piece of the flattened stop list of one of the options
and has at least 2 and at most `MAX_PUNTOS_POR_LOTE = 5` points; and at every value the
loop variable can take, the slice has at least two points, so the inner `length < 2`
skip is never taken. -/
theorem obtenerPromesasDeRuta_lotes_entre_2_y_5 {α : Type} (opciones : List (Opcion α))
    (apiKey : String) :
    (∀ c ∈ llamadasHechas (obtenerPromesasDeRuta opciones apiKey),
        ∃ opcion : List (List (Parada α)), some opcion ∈ opciones ∧
          (∃ antes despues : List (Parada α),
            opcion.flatten = antes ++ c.loteDeParadas ++ despues) ∧
          2 ≤ c.loteDeParadas.length ∧ c.loteDeParadas.length ≤ MAX_PUNTOS_POR_LOTE) ∧
      (∀ (paradasParaRutear : List (Parada α)) (i : Nat),
        (i : Int) < (paradasParaRutear.length : Int) - 1 →
          ¬ (slice paradasParaRutear i (i + MAX_PUNTOS_POR_LOTE)).length < 2) := by
  constructor
  · intro c hc
    rcases mem_obtenerPromesasDesde apiKey opciones 0 [] c hc with h | ⟨o, ho, hl⟩
    · simp at h
    · exact ⟨o, ho, mem_lotesDeParadas _ _ hl⟩
  · intro ps i hi
    rw [length_slice]; simp only [MAX_PUNTOS_POR_LOTE]; omega

theorem lotes_de_llamadasDeOpcion {α : Type} (apiKey : String) (opIndex : Nat)
    (opcion : List (List (Parada α))) :
    (llamadasDeOpcion apiKey opIndex opcion).map Llamada.loteDeParadas =
      lotesDeParadas opcion.flatten := by
  simp [llamadasDeOpcion, Function.comp_def]

theorem lotesDeParadas_getElem {β : Type} (ps : List β) (k : Nat)
    (hk : k < (lotesDeParadas ps).length) :
    (lotesDeParadas ps)[k]? = some (slice ps (4 * k) (4 * k + 5)) := by
  rw [length_lotesDeParadas] at hk
  rw [lotesDeParadas_eq]
  simp [List.getElem?_map, List.getElem?_range hk]

theorem slice_getLast {β : Type} (xs : List β) (i : Nat) (h : i + 4 < xs.length) :
    (slice xs i (i + 5)).getLast? = xs[i + 4]? := by
  rw [List.getLast?_eq_getElem?, length_slice]
  have : min (i + 5 - i) (xs.length - i) - 1 = 4 := by omega
  rw [this]
  simp [slice, List.getElem?_take, List.getElem?_drop]

theorem slice_head {β : Type} (xs : List β) (i j : Nat) (h : i < j) :
    (slice xs i j).head? = xs[i]? := by
  rw [List.head?_eq_getElem?]
  simp [slice, List.getElem?_take, List.getElem?_drop]
  omega

/-- C3: two consecutive batches of an option, numbers `k` and `k + 1`, are the slices of
the flattened list starting at positions `4k` and `4k + 4`; the last point of the earlier
one and the first point of the later one are both the stop at position `4k + 4`, and
that is the only position of the flattened list lying in both. -/
theorem lotes_consecutivos_comparten_un_punto {α : Type} (apiKey : String) (opIndex : Nat)
    (opcion : List (List (Parada α))) (k : Nat)
    (hk : k + 1 < (llamadasDeOpcion apiKey opIndex opcion).length) :
    ∃ anterior posterior : List (Parada α),
      ((llamadasDeOpcion apiKey opIndex opcion).map Llamada.loteDeParadas)[k]? = some anterior ∧
      ((llamadasDeOpcion apiKey opIndex opcion).map Llamada.loteDeParadas)[k + 1]?
        = some posterior ∧
      anterior = slice opcion.flatten (4 * k) (4 * k + 5) ∧
      posterior = slice opcion.flatten (4 * (k + 1)) (4 * (k + 1) + 5) ∧
      4 * k + 4 < opcion.flatten.length ∧
      anterior.getLast? = opcion.flatten[4 * k + 4]? ∧
      posterior.head? = opcion.flatten[4 * k + 4]? ∧
      ∀ p : Nat,
        ((4 * k ≤ p ∧ p < 4 * k + anterior.length) ∧
          (4 * (k + 1) ≤ p ∧ p < 4 * (k + 1) + posterior.length)) ↔ p = 4 * k + 4 := by
  rw [length_llamadasDeOpcion] at hk
  have hk1 : k < (lotesDeParadas opcion.flatten).length := by
    rw [length_lotesDeParadas]; omega
  have hk2 : k + 1 < (lotesDeParadas opcion.flatten).length := by
    rw [length_lotesDeParadas]; omega
  refine ⟨_, _, ?_, ?_, rfl, rfl, by omega, ?_, ?_, ?_⟩
  · rw [lotes_de_llamadasDeOpcion]; exact lotesDeParadas_getElem _ _ hk1
  · rw [lotes_de_llamadasDeOpcion]; exact lotesDeParadas_getElem _ _ hk2
  · exact slice_getLast _ _ (by omega)
  · rw [slice_head _ _ _ (by omega)]; rfl
  · intro p
    rw [length_slice, length_slice]
    omega

theorem drop_uno_slice {β : Type} (xs : List β) (i j : Nat) :
    (slice xs i j).drop 1 = slice xs (i + 1) j := by
  simp only [slice, List.drop_take, List.drop_drop]
  rw [Nat.sub_sub]

theorem unirLotes_snoc {β : Type} (primero : List β) (resto : List (List β)) (ultimo : List β) :
    unirLotes ((primero :: resto) ++ [ultimo]) = unirLotes (primero :: resto) ++ ultimo.drop 1 := by
  simp [unirLotes, List.append_assoc]

theorem unirLotes_rango {β : Type} (ps : List β) (n : Nat) :
    unirLotes ((List.range (n + 1)).map (fun k => slice ps (4 * k) (4 * k + 5))) =
      ps.take (4 * n + 5) := by
  induction n with
  | zero => simp [List.range_succ, unirLotes, slice]
  | succ n ih =>
    rw [List.range_succ, List.map_append]
    obtain ⟨primero, resto, hpr⟩ :
        ∃ primero resto, (List.range (n + 1)).map (fun k => slice ps (4 * k) (4 * k + 5))
          = primero :: resto := by
      rw [List.range_succ_eq_map]; exact ⟨_, _, rfl⟩
    rw [hpr] at ih ⊢
    simp only [List.map_cons, List.map_nil]
    rw [unirLotes_snoc, ih, drop_uno_slice]
    have h1 : slice ps (4 * (n + 1) + 1) (4 * (n + 1) + 5) = (ps.drop (4 * n + 5)).take 4 := by
      simp only [slice]
      congr 2; omega
    have h2 : 4 * (n + 1) + 5 = (4 * n + 5) + 4 := by omega
    rw [h1, h2]
    exact (List.take_add ps (4 * n + 5) 4).symm

/-! ## Batches cover the option; markers -/

/-- C10: for an option with at least 2 flattened stops, joining its batches in order,
each batch after the first without its first point, gives back the flattened stop list;
and every pair of adjacent positions `j`, `j + 1` of the flattened list lies inside
exactly one batch. -/
theorem lotes_cubren_la_opcion_una_vez {α : Type} (apiKey : String) (opIndex : Nat)
    (opcion : List (List (Parada α))) (h : 2 ≤ opcion.flatten.length) :
    unirLotes ((llamadasDeOpcion apiKey opIndex opcion).map Llamada.loteDeParadas)
        = opcion.flatten ∧
      ∀ j : Nat, j + 1 < opcion.flatten.length →
        ∃! k : Nat, ∃ lote : List (Parada α),
          ((llamadasDeOpcion apiKey opIndex opcion).map Llamada.loteDeParadas)[k]? = some lote ∧
          lote = slice opcion.flatten (4 * k) (4 * k + 5) ∧
          4 * k ≤ j ∧ j + 1 < 4 * k + lote.length := by
  rw [lotes_de_llamadasDeOpcion]
  constructor
  · rw [lotesDeParadas_eq]
    obtain ⟨n, hn⟩ : ∃ n, (opcion.flatten.length + 2) / 4 = n + 1 :=
      ⟨(opcion.flatten.length + 2) / 4 - 1, by omega⟩
    rw [hn, unirLotes_rango]
    exact List.take_of_length_le (by omega)
  · intro j hj
    refine ⟨j / 4, ⟨_, lotesDeParadas_getElem _ _ ?_, rfl, by omega, ?_⟩, ?_⟩
    · rw [length_lotesDeParadas]; omega
    · rw [length_slice]; omega
    · rintro k ⟨lote, hlote, rfl, h1, h2⟩
      rw [length_slice] at h2
      omega

theorem forEachDesde_unitario_length {β ε : Type} (g : β → Nat → ε) (xs : List β) :
    ∀ desde : Nat, (forEachDesde (fun x i => [g x i]) desde xs).length = xs.length := by
  induction xs with
  | nil => intro desde; simp [forEachDesde]
  | cons x xs ih => intro desde; simp [forEachDesde, ih]

theorem forEachDesde_unitario_getElem {β ε : Type} (g : β → Nat → ε) (xs : List β) :
    ∀ (desde j : Nat),
      (forEachDesde (fun x i => [g x i]) desde xs)[j]? = xs[j]?.map (fun x => g x (desde + j)) := by
  induction xs with
  | nil => intro desde j; simp [forEachDesde]
  | cons x xs ih =>
    intro desde j
    cases j with
    | zero => simp [forEachDesde]
    | succ j =>
      simp only [forEachDesde, List.singleton_append, List.getElem?_cons_succ, ih]
      congr 1
      funext y
      congr 1
      omega

theorem marcadoresDeOpcion_eq {α : Type} (opcion : Opcion α) (opIndex : Nat) :
    marcadoresDeOpcion opcion opIndex =
      (forEachDesde
          (fun parada index =>
            [marcadorDeParada opIndex (paradasDeOpcion opcion).length parada index])
          0 (paradasDeOpcion opcion),
        paradasDeOpcion opcion) := by
  cases opcion with
  | none => simp [marcadoresDeOpcion, paradasDeOpcion, forEachDesde]
  | some segmentos =>
    simp only [marcadoresDeOpcion, paradasDeOpcion]
    split
    · rename_i h
      have : segmentos = [] := List.length_eq_zero.mp h
      subst this
      simp [forEachDesde]
    · split
      · rename_i h
        rw [List.length_eq_zero.mp h]
        simp [forEachDesde]
      · rfl

theorem marcadores_forEachDesde {α : Type} (opIndex total : Nat) (ps : List (Parada α)) :
    ∀ desde : Nat,
      marcadores (forEachDesde (fun parada index => [marcadorDeParada opIndex total parada index])
          desde ps) =
        forEachDesde (fun parada index => [(claseDePosicion total index, parada)]) desde ps := by
  induction ps with
  | nil => intro desde; simp [forEachDesde, marcadores]
  | cons p ps ih =>
    intro desde
    have ih2 := ih (desde + 1)
    simp only [marcadores] at ih2 ⊢
    simp only [forEachDesde, List.singleton_append, List.filterMap_cons, ih2]
    unfold marcadorDeParada claseDePosicion
    by_cases h0 : desde = 0
    · simp [h0]
    · by_cases h1 : desde + 1 = total
      · have : (desde : Int) = (total : Int) - 1 := by omega
        simp [h0, h1, this]
      · have : ¬ (desde : Int) = (total : Int) - 1 := by omega
        simp [h0, h1, this]

theorem dibujarMarcadoresDesde_eq {α : Type} (opciones : List (Opcion α)) :
    ∀ opIndex : Nat,
      dibujarMarcadoresDesde opIndex opciones =
        (forEachDesde (fun opcion i => (marcadoresDeOpcion opcion i).1) opIndex opciones,
          (opciones.map paradasDeOpcion).flatten) := by
  induction opciones with
  | nil => intro opIndex; simp [dibujarMarcadoresDesde, forEachDesde]
  | cons o resto ih =>
    intro opIndex
    simp [dibujarMarcadoresDesde, forEachDesde, ih, marcadoresDeOpcion_eq]

theorem marcadores_append {α : Type} (xs ys : List (Evento α)) :
    marcadores (xs ++ ys) = marcadores xs ++ marcadores ys := by
  simp [marcadores]

theorem marcadores_dibujarMarcadoresDesde {α : Type} (opciones : List (Opcion α)) :
    ∀ opIndex : Nat,
      (dibujarMarcadoresDesde opIndex opciones).1.length
          = (opciones.map (fun opcion => (paradasDeOpcion opcion).length)).sum ∧
        (marcadores (dibujarMarcadoresDesde opIndex opciones).1).map Prod.snd
          = (opciones.map paradasDeOpcion).flatten := by
  induction opciones with
  | nil => intro opIndex; simp [dibujarMarcadoresDesde, marcadores]
  | cons o resto ih =>
    intro opIndex
    obtain ⟨h1, h2⟩ := ih (opIndex + 1)
    simp only [dibujarMarcadoresDesde, List.length_append, h1, marcadores_append,
      List.map_append, h2, List.map_cons, List.sum_cons, List.flatten_cons]
    rw [marcadoresDeOpcion_eq]
    simp only [forEachDesde_unitario_length, marcadores_forEachDesde, true_and]
    congr 1
    apply List.ext_getElem?
    intro j
    simp only [List.getElem?_map, forEachDesde_unitario_getElem, Option.map_map]
    cases (paradasDeOpcion o)[j]? <;> simp

/-! ## Promise.allSettled -/

theorem invAllSettled_inicial {ρ : Type} (promesas : List ρ) :
    InvAllSettled promesas (allSettledInicial promesas.length) ∅ := by
  refine ⟨by simp [allSettledInicial], ?_, by simp [allSettledInicial]⟩
  intro i hi
  simp [allSettledInicial, List.getElem?_replicate, hi]

theorem invAllSettled_paso {ρ : Type} (promesas : List ρ) (st : EstadoAllSettled ρ)
    (S : Finset Nat) (k : Nat) (h : InvAllSettled promesas st S) :
    InvAllSettled promesas (pasoAllSettled promesas st k) (insert k S) := by
  obtain ⟨hlen, hval, hres⟩ := h
  unfold pasoAllSettled
  by_cases hk : k < promesas.length
  · rw [List.getElem?_eq_getElem hk]
    simp only [alAsentarse]
    have hvk := hval k hk
    by_cases hS : k ∈ S
    · rw [hvk]
      simp only [hS, if_true, List.getElem?_eq_getElem hk]
      refine ⟨hlen, ?_, ?_⟩
      · intro i hi
        rw [hval i hi]
        by_cases hik : i = k
        · subst hik; simp [hS]
        · simp [Finset.mem_insert, hik]
      · rw [hres, Finset.insert_eq_of_mem hS]
    · rw [hvk]
      simp only [hS, if_false]
      refine ⟨by simp [hlen], ?_, ?_⟩
      · intro i hi
        show (st.valores.set k (some promesas[k]))[i]? = _
        rw [List.getElem?_set]
        by_cases hik : k = i
        · subst hik
          simp [hlen, hk]
        · have hik2 : ¬ i = k := fun h => hik h.symm
          simp [hik, hik2, Finset.mem_insert, hval i hi]
      · show st.restantes - 1 = _
        rw [hres, Finset.sdiff_insert, Finset.card_erase_of_mem]
        simp [hk, hS]
  · rw [List.getElem?_eq_none (by omega)]
    refine ⟨hlen, ?_, ?_⟩
    · intro i hi
      have hik : ¬ i = k := by omega
      simp [Finset.mem_insert, hik, hval i hi]
    · rw [hres]
      congr 1
      ext i
      simp only [Finset.mem_sdiff, Finset.mem_range, Finset.mem_insert]
      constructor
      · rintro ⟨h1, h2⟩; exact ⟨h1, fun h => h.elim (fun e => by omega) h2⟩
      · rintro ⟨h1, h2⟩; exact ⟨h1, fun h => h2 (Or.inr h)⟩

theorem invAllSettled_foldl {ρ : Type} (promesas : List ρ) (orden : List Nat) :
    ∀ (st : EstadoAllSettled ρ) (S : Finset Nat), InvAllSettled promesas st S →
      InvAllSettled promesas (orden.foldl (pasoAllSettled promesas) st) (S ∪ orden.toFinset) := by
  induction orden with
  | nil => intro st S h; simpa using h
  | cons k resto ih =>
    intro st S h
    have h2 := ih _ _ (invAllSettled_paso promesas st S k h)
    simp only [List.foldl_cons, List.toFinset_cons]
    have e : S ∪ insert k resto.toFinset = insert k S ∪ resto.toFinset := by
      ext i; simp only [Finset.mem_union, Finset.mem_insert]; tauto
    rw [e]; exact h2

theorem allSettled_eq_foldl {ρ : Type} (promesas : List ρ) (orden : List Nat) :
    allSettled promesas orden =
      if (orden.foldl (pasoAllSettled promesas) (allSettledInicial promesas.length)).restantes = 0
      then some ((orden.foldl (pasoAllSettled promesas)
        (allSettledInicial promesas.length)).valores.filterMap id)
      else none := rfl

/-- When every input promise settles, in whatever order, `Promise.allSettled` is fulfilled
with the outcomes in the order of the input array. -/
theorem allSettled_completo {ρ : Type} (promesas : List ρ) (orden : List Nat)
    (h : ∀ i, i < promesas.length → i ∈ orden) :
    allSettled promesas orden = some promesas := by
  have inv := invAllSettled_foldl promesas orden _ _ (invAllSettled_inicial promesas)
  obtain ⟨hlen, hval, hres⟩ := inv
  rw [allSettled_eq_foldl]
  have h0 : (orden.foldl (pasoAllSettled promesas)
      (allSettledInicial promesas.length)).restantes = 0 := by
    rw [hres, Finset.card_eq_zero, Finset.sdiff_eq_empty_iff_subset]
    intro i hi
    simp only [Finset.mem_range] at hi
    simp [h i hi]
  rw [if_pos h0]
  congr 1
  have hv : (orden.foldl (pasoAllSettled promesas)
      (allSettledInicial promesas.length)).valores = promesas.map some := by
    apply List.ext_getElem?
    intro i
    by_cases hi : i < promesas.length
    · rw [hval i hi]
      simp [h i hi, List.getElem?_eq_getElem hi]
    · rw [List.getElem?_eq_none (by omega), List.getElem?_eq_none (by simp; omega)]
  rw [hv, List.filterMap_map]
  simp

/-- When some input promise never settles, `Promise.allSettled` stays pending. -/
theorem allSettled_pendiente {ρ : Type} (promesas : List ρ) (orden : List Nat)
    (i : Nat) (hi : i < promesas.length) (h : i ∉ orden) :
    allSettled promesas orden = none := by
  have inv := invAllSettled_foldl promesas orden _ _ (invAllSettled_inicial promesas)
  obtain ⟨hlen, hval, hres⟩ := inv
  rw [allSettled_eq_foldl]
  have h0 : ¬ (orden.foldl (pasoAllSettled promesas)
      (allSettledInicial promesas.length)).restantes = 0 := by
    rw [hres, Finset.card_eq_zero, Finset.sdiff_eq_empty_iff_subset]
    intro hsub
    have := hsub (Finset.mem_range.mpr hi)
    simp at this
    exact h this
  rw [if_neg h0]

/-! ## Coordinate order and the failure paths of the render cycle -/

/-- C5: the swap `[lat, lng] ↦ [lng, lat]` applied twice is the identity; the request
carries the batch swapped; and when the service answers successfully with a first path
through exactly the points it was sent, `fetchLoteDeRuta` is fulfilled with the input
batch itself, latitude first, paired with the input style. -/
theorem fetchLoteDeRuta_ida_y_vuelta {α : Type} (loteDeParadas : List (Parada α))
    (estilo : Estilo) (apiKey : String) (fetch : Peticion α → Respuesta α)
    (message : Option String) (otros : List (List (α × α)))
    (h : fetch (peticionDeLote loteDeParadas apiKey) =
      .http true (.ok { message := message,
                        paths := some ((peticionDeLote loteDeParadas apiKey).points :: otros) })) :
    (∀ p : Parada α, invertir (invertir p) = p) ∧
      (peticionDeLote loteDeParadas apiKey).points = loteDeParadas.map invertir ∧
      fetchLoteDeRuta loteDeParadas estilo apiKey fetch =
        .ok { coords := loteDeParadas, estilo := estilo } := by
  refine ⟨fun p => rfl, rfl, ?_⟩
  unfold fetchLoteDeRuta
  rw [h]
  simp [peticionDeLote, Function.comp_def, invertir]

theorem notificaciones_bloqueFinally {α : Type} (env : Entorno α) (h : env.javaApp = true) :
    bloqueFinally env = [.cargadorOculto, .notificarMapaTerminado] := by
  simp [bloqueFinally, h]

/-- C8: when the payload is not valid JSON and a host is registered, the cycle shows the
loader, clears the overlay, logs the parse error, hides the loader and notifies the host,
and nothing else: no marker, no route, no network request, exactly one notification, and
the promise of the call is fulfilled, so the error does not reach the caller. -/
theorem dibujarRutasDeColectivo_json_invalido {α : Type} (env : Entorno α)
    (opcionesDeRutaString mensaje : String)
    (hjson : env.JSON_parse opcionesDeRutaString = .error mensaje)
    (hhost : env.javaApp = true) :
    (dibujarRutasDeColectivo env opcionesDeRutaString).eventos =
        [.cargadorVisible, .clearLayers,
          .consoleError ("Error general al procesar rutas de colectivo: " ++ mensaje),
          .cargadorOculto, .notificarMapaTerminado] ∧
      (dibujarRutasDeColectivo env opcionesDeRutaString).estado = .cumplida ∧
      marcadores (dibujarRutasDeColectivo env opcionesDeRutaString).eventos = [] ∧
      polilineas (dibujarRutasDeColectivo env opcionesDeRutaString).eventos = [] ∧
      peticiones (dibujarRutasDeColectivo env opcionesDeRutaString).eventos = [] ∧
      notificaciones (dibujarRutasDeColectivo env opcionesDeRutaString).eventos = 1 := by
  have e : dibujarRutasDeColectivo env opcionesDeRutaString =
      { eventos := [.cargadorVisible, .clearLayers,
          .consoleError ("Error general al procesar rutas de colectivo: " ++ mensaje),
          .cargadorOculto, .notificarMapaTerminado]
        estado := .cumplida } := by
    simp [dibujarRutasDeColectivo, bloqueTry, hjson, bloqueFinally, hhost]
  rw [e]
  simp [marcadores, polilineas, peticiones, notificaciones]

/-- C9: when `window.GH_API_KEY` is absent (or otherwise falsy) and a host is registered,
for every payload the cycle issues no network request and draws no marker and no route;
when the payload parses, the missing-credential diagnostic is logged; the host is notified
exactly once, as the last effect, and the call ends normally. -/
theorem dibujarRutasDeColectivo_sin_credencial {α : Type} (env : Entorno α)
    (opcionesDeRutaString : String)
    (hkey : esVerdadero env.GH_API_KEY = false)
    (hhost : env.javaApp = true) :
    peticiones (dibujarRutasDeColectivo env opcionesDeRutaString).eventos = [] ∧
      marcadores (dibujarRutasDeColectivo env opcionesDeRutaString).eventos = [] ∧
      polilineas (dibujarRutasDeColectivo env opcionesDeRutaString).eventos = [] ∧
      (∀ opciones, env.JSON_parse opcionesDeRutaString = .ok opciones →
        "No se encontró GH_API_KEY." ∈
          erroresDeConsola (dibujarRutasDeColectivo env opcionesDeRutaString).eventos) ∧
      notificaciones (dibujarRutasDeColectivo env opcionesDeRutaString).eventos = 1 ∧
      (dibujarRutasDeColectivo env opcionesDeRutaString).eventos.getLast?
        = some .notificarMapaTerminado ∧
      (dibujarRutasDeColectivo env opcionesDeRutaString).estado = .cumplida := by
  cases hp : env.JSON_parse opcionesDeRutaString with
  | error mensaje =>
    have e : dibujarRutasDeColectivo env opcionesDeRutaString =
        { eventos := [.cargadorVisible, .clearLayers,
            .consoleError ("Error general al procesar rutas de colectivo: " ++ mensaje),
            .cargadorOculto, .notificarMapaTerminado]
          estado := .cumplida } := by
      simp [dibujarRutasDeColectivo, bloqueTry, hp, bloqueFinally, hhost]
    rw [e]
    simp [marcadores, polilineas, peticiones, notificaciones]
  | ok opciones =>
    by_cases ho : hayOpciones opciones = true
    · have e : dibujarRutasDeColectivo env opcionesDeRutaString =
          { eventos := [.cargadorVisible, .clearLayers,
              .consoleError "No se encontró GH_API_KEY.",
              .cargadorOculto, .notificarMapaTerminado]
            estado := .cumplida } := by
        simp [dibujarRutasDeColectivo, bloqueTry, hp, bloqueFinally, hhost, hkey, ho]
      rw [e]
      simp [marcadores, polilineas, peticiones, notificaciones, erroresDeConsola]
    · have e : dibujarRutasDeColectivo env opcionesDeRutaString =
          { eventos := [.cargadorVisible, .clearLayers,
              .consoleError "No se encontró GH_API_KEY.",
              .consoleLog "No se encontraron opciones de ruta válidas.",
              .cargadorOculto, .notificarMapaTerminado]
            estado := .cumplida } := by
        simp [dibujarRutasDeColectivo, bloqueTry, hp, bloqueFinally, hhost, hkey, ho]
      rw [e]
      simp [marcadores, polilineas, peticiones, notificaciones, erroresDeConsola]

/-! ## The render cycle with valid inputs -/

theorem solo_marcadores_forEach {α : Type} (opIndex total : Nat) (ps : List (Parada α)) :
    ∀ (desde : Nat),
      ∀ e ∈ forEachDesde (fun parada index => [marcadorDeParada opIndex total parada index])
          desde ps,
        ∃ c p t, e = Evento.marcador c p t := by
  induction ps with
  | nil => intro desde e he; simp [forEachDesde] at he
  | cons p ps ih =>
    intro desde e he
    simp only [forEachDesde, List.singleton_append, List.mem_cons] at he
    rcases he with rfl | he
    · unfold marcadorDeParada
      split
      · exact ⟨_, _, _, rfl⟩
      · split
        · exact ⟨_, _, _, rfl⟩
        · exact ⟨_, _, _, rfl⟩
    · exact ih _ e he

theorem solo_marcadores {α : Type} (opciones : List (Opcion α)) :
    ∀ (opIndex : Nat), ∀ e ∈ (dibujarMarcadoresDesde opIndex opciones).1,
      ∃ c p t, e = Evento.marcador c p t := by
  induction opciones with
  | nil => intro opIndex e he; simp [dibujarMarcadoresDesde] at he
  | cons o resto ih =>
    intro opIndex e he
    simp only [dibujarMarcadoresDesde, List.mem_append] at he
    rcases he with he | he
    · rw [marcadoresDeOpcion_eq] at he
      exact solo_marcadores_forEach _ _ _ _ e he
    · exact ih _ e he

theorem antesDeEsperar_limpio {α : Type} (opciones : List (Opcion α))
    (promesasDeLotes : List (Llamada α)) :
    polilineas (antesDeEsperar opciones promesasDeLotes) = [] ∧
      erroresDeConsola (antesDeEsperar opciones promesasDeLotes) = [] ∧
      notificaciones (antesDeEsperar opciones promesasDeLotes) = 0 := by
  have hm := solo_marcadores opciones 0
  refine ⟨?_, ?_, ?_⟩
  · simp only [polilineas, List.filterMap_eq_nil_iff, antesDeEsperar, peticionesDeLlamadas,
      dibujarMarcadoresDeParadas]
    intro e he
    simp only [List.mem_append, List.mem_cons, List.mem_map, List.mem_singleton] at he
    rcases he with ((( h | h | h) | h) | h) | h
    · subst h; rfl
    · subst h; rfl
    · simp at h
    · obtain ⟨c, p, t, rfl⟩ := hm e h; rfl
    · split at h
      · simp at h; subst h; rfl
      · simp at h
    · obtain ⟨c, _, rfl⟩ := h; rfl
  · simp only [erroresDeConsola, List.filterMap_eq_nil_iff, antesDeEsperar, peticionesDeLlamadas,
      dibujarMarcadoresDeParadas]
    intro e he
    simp only [List.mem_append, List.mem_cons, List.mem_map, List.mem_singleton] at he
    rcases he with ((( h | h | h) | h) | h) | h
    · subst h; rfl
    · subst h; rfl
    · simp at h
    · obtain ⟨c, p, t, rfl⟩ := hm e h; rfl
    · split at h
      · simp at h; subst h; rfl
      · simp at h
    · obtain ⟨c, _, rfl⟩ := h; rfl
  · simp only [notificaciones, List.length_eq_zero, List.filter_eq_nil_iff, antesDeEsperar,
      peticionesDeLlamadas, dibujarMarcadoresDeParadas]
    intro e he
    simp only [List.mem_append, List.mem_cons, List.mem_map, List.mem_singleton] at he
    rcases he with ((( h | h | h) | h) | h) | h
    · subst h; simp
    · subst h; simp
    · simp at h
    · obtain ⟨c, p, t, rfl⟩ := hm e h; simp
    · split at h
      · simp at h; subst h; simp
      · simp at h
    · obtain ⟨c, _, rfl⟩ := h; simp

theorem lecturas_dibujarResultados {α : Type} (resultados : List (Resultado α)) :
    polilineas (dibujarResultados resultados) = exitos resultados ∧
      erroresDeConsola (dibujarResultados resultados) =
        (fallos resultados).map
          (fun mensaje => "Lote de ruta fallido: " ++ oSiNo (some mensaje) "Error desconocido") ∧
      notificaciones (dibujarResultados resultados) = 0 := by
  induction resultados with
  | nil => simp [dibujarResultados, polilineas, exitos, erroresDeConsola, fallos, notificaciones]
  | cons r rs ih =>
    obtain ⟨h1, h2, h3⟩ := ih
    simp only [dibujarResultados, polilineas, exitos, erroresDeConsola, fallos,
      notificaciones] at h1 h2 h3 ⊢
    cases r with
    | ok v => simp [dibujarResultado, h1, h2, h3]
    | error m => simp [dibujarResultado, h1, h2, h3]

theorem bloqueTry_con_resultados {α : Type} (env : Entorno α) (opcionesDeRutaString : String)
    (opciones : Option (List (Opcion α))) (promesasDeLotes : List (Llamada α))
    (resultados : List (Resultado α))
    (hjson : env.JSON_parse opcionesDeRutaString = .ok opciones)
    (hkey : esVerdadero env.GH_API_KEY = true)
    (hops : hayOpciones opciones = true)
    (hprom : obtenerPromesasDeRuta (opciones.getD []) (env.GH_API_KEY.getD "")
      = .ok promesasDeLotes)
    (hne : promesasDeLotes ≠ [])
    (hset : allSettled (resultadosDeLlamadas env.red 0 promesasDeLotes) env.orden
      = some resultados) :
    bloqueTry env opcionesDeRutaString =
      (antesDeEsperar (opciones.getD []) promesasDeLotes ++ dibujarResultados resultados,
        .normal) := by
  have hlen : ¬ promesasDeLotes.length = 0 := fun h => hne (List.length_eq_zero.mp h)
  simp only [bloqueTry, hjson, hkey, hops, hprom, hset, Bool.and_self, if_true, hlen, if_false,
    antesDeEsperar]

theorem length_resultadosDeLlamadas {α : Type} (red : Nat → Peticion α → Respuesta α)
    (llamadas : List (Llamada α)) :
    ∀ k : Nat, (resultadosDeLlamadas red k llamadas).length = llamadas.length := by
  induction llamadas with
  | nil => intro k; simp [resultadosDeLlamadas]
  | cons c resto ih => intro k; simp [resultadosDeLlamadas, ih]

/-- C4, counterexample: an option with a single stop. Its only stop is the last stop of
the flattened list, and its marker is an origin marker, not a destination marker. -/
theorem dibujarMarcadoresDeParadas_parada_unica_es_origen :
    paradasDeOpcion (some [[((1 : Int), (2 : Int))]]) = [(1, 2)] ∧
      marcadores (dibujarMarcadoresDeParadas [some [[((1 : Int), (2 : Int))]]]).1
        = [(ClaseMarcador.origen, (1, 2))] ∧
      (marcadores (dibujarMarcadoresDeParadas [some [[((1 : Int), (2 : Int))]]]).1).getLast?
        ≠ some (ClaseMarcador.destino, (1, 2)) := by
  decide

/-- C4, amended: for every options list with `N` stops in total (a `null` option has
none), `dibujarMarcadoresDeParadas` places exactly `N` markers, all of them markers, at the
stops in order, and returns those `N` coordinates; within an option the stop at position
`0` is classified origin, the last stop is classified destination when it is not also
the first, and every other stop intermediate. -/
theorem dibujarMarcadoresDeParadas_marcadores {α : Type} (opciones : List (Opcion α)) :
    (dibujarMarcadoresDeParadas opciones).1.length
        = (opciones.map (fun opcion => (paradasDeOpcion opcion).length)).sum ∧
      (marcadores (dibujarMarcadoresDeParadas opciones).1).length
        = (opciones.map (fun opcion => (paradasDeOpcion opcion).length)).sum ∧
      (dibujarMarcadoresDeParadas opciones).2 = (opciones.map paradasDeOpcion).flatten ∧
      (dibujarMarcadoresDeParadas opciones).2.length
        = (opciones.map (fun opcion => (paradasDeOpcion opcion).length)).sum ∧
      (marcadores (dibujarMarcadoresDeParadas opciones).1).map Prod.snd
        = (dibujarMarcadoresDeParadas opciones).2 ∧
      (dibujarMarcadoresDeParadas opciones).1
        = forEachDesde (fun opcion opIndex => (marcadoresDeOpcion opcion opIndex).1) 0 opciones ∧
      ∀ (opcion : Opcion α) (opIndex j : Nat) (parada : Parada α),
        (paradasDeOpcion opcion)[j]? = some parada →
          (marcadores (marcadoresDeOpcion opcion opIndex).1)[j]? =
            some
              (if j = 0 then ClaseMarcador.origen
                else if j + 1 = (paradasDeOpcion opcion).length then ClaseMarcador.destino
                else ClaseMarcador.intermedia,
                parada) := by
  have hsum : ((opciones.map paradasDeOpcion).flatten).length
      = (opciones.map (fun opcion => (paradasDeOpcion opcion).length)).sum := by
    rw [List.length_flatten, List.map_map]; rfl
  obtain ⟨h1, h2⟩ := marcadores_dibujarMarcadoresDesde opciones 0
  have h3 := dibujarMarcadoresDesde_eq opciones 0
  have h4 : (dibujarMarcadoresDeParadas opciones).2 = (opciones.map paradasDeOpcion).flatten := by
    unfold dibujarMarcadoresDeParadas; rw [h3]
  refine ⟨h1, ?_, h4, ?_, ?_, ?_, ?_⟩
  · have := congrArg List.length h2
    rw [List.length_map, hsum] at this
    exact this
  · rw [h4, hsum]
  · rw [h4]; exact h2
  · unfold dibujarMarcadoresDeParadas; rw [h3]
  · intro opcion opIndex j parada hj
    rw [marcadoresDeOpcion_eq, marcadores_forEachDesde, forEachDesde_unitario_getElem, hj]
    simp [claseDePosicion]

/-- C4, instance: the third and last stop of a three-stop option is a destination. -/
theorem dibujarMarcadoresDeParadas_marcadores_testigo :
    (paradasDeOpcion (some [[((1 : Int), (2 : Int)), (3, 4)], [(5, 6)]]))[2]? = some (5, 6) ∧
      (marcadores (marcadoresDeOpcion (some [[((1 : Int), (2 : Int)), (3, 4)], [(5, 6)]]) 0).1)[2]?
        = some
            (if 2 = 0 then ClaseMarcador.origen
              else if 2 + 1 = (paradasDeOpcion (some [[((1 : Int), (2 : Int)), (3, 4)], [(5, 6)]])).length
                then ClaseMarcador.destino
              else ClaseMarcador.intermedia,
              (5, 6)) :=
  ⟨by decide,
    (dibujarMarcadoresDeParadas_marcadores [some [[((1 : Int), (2 : Int)), (3, 4)], [(5, 6)]]]).2.2.2.2.2.2
      (some [[((1 : Int), (2 : Int)), (3, 4)], [(5, 6)]]) 0 2 (5, 6) (by decide)⟩

/-- C6, counterexample: two batches whose fetches settle in the order second, first. The
polylines are drawn first batch, second batch, which is not the settle order. -/
theorem dibujarRutasDeColectivo_no_en_orden_de_asentamiento :
    entornoDosLotes.orden = [1, 0] ∧
      obtenerPromesasDeRuta opcionesDosLotes "clave" = .ok promesasDosLotes ∧
      polilineas (dibujarRutasDeColectivo entornoDosLotes "").eventos =
        [rutaPrimerLote, rutaSegundoLote] ∧
      exitos (enOrdenDeAsentamiento (resultadosDeLlamadas entornoDosLotes.red 0 promesasDosLotes)
          entornoDosLotes.orden) =
        [rutaSegundoLote, rutaPrimerLote] ∧
      polilineas (dibujarRutasDeColectivo entornoDosLotes "").eventos ≠
        exitos (enOrdenDeAsentamiento (resultadosDeLlamadas entornoDosLotes.red 0 promesasDosLotes)
          entornoDosLotes.orden) := by
  refine ⟨rfl, rfl, ?_, ?_, ?_⟩ <;> decide

/-- C6, amended: in a render cycle with valid inputs in which every fetch settles, the
results are drawn in submission order, the order of `promesasDeLotes`, whatever the order
in which the fetches settled: the trace is the preparation, then one drawing or report
per promise in array order, then the `finally` block; so each successful polyline is
drawn exactly once. -/
theorem dibujarRutasDeColectivo_en_orden_de_envio {α : Type} (env : Entorno α)
    (opcionesDeRutaString : String) (opciones : Option (List (Opcion α)))
    (promesasDeLotes : List (Llamada α))
    (hjson : env.JSON_parse opcionesDeRutaString = .ok opciones)
    (hkey : esVerdadero env.GH_API_KEY = true)
    (hops : hayOpciones opciones = true)
    (hprom : obtenerPromesasDeRuta (opciones.getD []) (env.GH_API_KEY.getD "")
      = .ok promesasDeLotes)
    (hne : promesasDeLotes ≠ [])
    (hasientan : ∀ k, k < promesasDeLotes.length → k ∈ env.orden) :
    (dibujarRutasDeColectivo env opcionesDeRutaString).eventos =
        antesDeEsperar (opciones.getD []) promesasDeLotes
          ++ dibujarResultados (resultadosDeLlamadas env.red 0 promesasDeLotes)
          ++ bloqueFinally env ∧
      polilineas (dibujarRutasDeColectivo env opcionesDeRutaString).eventos =
        exitos (resultadosDeLlamadas env.red 0 promesasDeLotes) ∧
      (dibujarRutasDeColectivo env opcionesDeRutaString).estado = .cumplida := by
  have hset : allSettled (resultadosDeLlamadas env.red 0 promesasDeLotes) env.orden
      = some (resultadosDeLlamadas env.red 0 promesasDeLotes) := by
    apply allSettled_completo
    intro i hi
    rw [length_resultadosDeLlamadas] at hi
    exact hasientan i hi
  have hb := bloqueTry_con_resultados env opcionesDeRutaString opciones promesasDeLotes _
    hjson hkey hops hprom hne hset
  obtain ⟨ha, -, -⟩ := antesDeEsperar_limpio (opciones.getD []) promesasDeLotes
  obtain ⟨hd, -, -⟩ := lecturas_dibujarResultados (resultadosDeLlamadas env.red 0 promesasDeLotes)
  have hf : polilineas (bloqueFinally env) = [] := by
    unfold bloqueFinally polilineas; cases env.javaApp <;> simp
  have happ : ∀ xs ys : List (Evento α), polilineas (xs ++ ys) = polilineas xs ++ polilineas ys := by
    intro xs ys; simp [polilineas]
  simp only [dibujarRutasDeColectivo, hb, happ, ha, hd, hf, List.nil_append, List.append_nil,
    and_self]

theorem exitos_cons_ok {α : Type} (v : RutaObtenida α) (rs : List (Resultado α)) :
    exitos (Except.ok v :: rs) = v :: exitos rs ∧ fallos (Except.ok v :: rs) = fallos rs := by
  simp [exitos, fallos]

theorem exitos_cons_error {α : Type} (m : String) (rs : List (Resultado α)) :
    exitos (Except.error m :: rs) = exitos rs ∧ fallos (Except.error m :: rs) = m :: fallos rs := by
  simp [exitos, fallos]

theorem exitos_mas_fallos {α : Type} (resultados : List (Resultado α)) :
    (exitos resultados).length + (fallos resultados).length = resultados.length := by
  induction resultados with
  | nil => simp [exitos, fallos]
  | cons r rs ih =>
    cases r with
    | ok v => rw [(exitos_cons_ok v rs).1, (exitos_cons_ok v rs).2]; simp; omega
    | error m => rw [(exitos_cons_error m rs).1, (exitos_cons_error m rs).2]; simp; omega

/-- C7: partial-failure tolerance. In a render cycle whose `Promise.allSettled` delivers
a non-empty list of outcomes, with a host registered: the polylines drawn are exactly the
successes, each once with its own coords and style; the `console.error` messages are
exactly one per failure, built from its reason; successes and failures together are all
the outcomes, so no failure hides a sibling; the host is notified exactly once, as the
last effect, after every outcome has been processed; and the call ends normally. -/
theorem dibujarRutasDeColectivo_fallos_parciales {α : Type} (env : Entorno α)
    (opcionesDeRutaString : String) (opciones : Option (List (Opcion α)))
    (promesasDeLotes : List (Llamada α)) (resultados : List (Resultado α))
    (hjson : env.JSON_parse opcionesDeRutaString = .ok opciones)
    (hkey : esVerdadero env.GH_API_KEY = true)
    (hops : hayOpciones opciones = true)
    (hprom : obtenerPromesasDeRuta (opciones.getD []) (env.GH_API_KEY.getD "")
      = .ok promesasDeLotes)
    (hset : allSettled (resultadosDeLlamadas env.red 0 promesasDeLotes) env.orden
      = some resultados)
    (hne : resultados ≠ [])
    (hhost : env.javaApp = true) :
    (dibujarRutasDeColectivo env opcionesDeRutaString).eventos =
        antesDeEsperar (opciones.getD []) promesasDeLotes
          ++ dibujarResultados resultados
          ++ [.cargadorOculto, .notificarMapaTerminado] ∧
      polilineas (dibujarRutasDeColectivo env opcionesDeRutaString).eventos
        = exitos resultados ∧
      erroresDeConsola (dibujarRutasDeColectivo env opcionesDeRutaString).eventos
        = (fallos resultados).map
            (fun mensaje => "Lote de ruta fallido: " ++ oSiNo (some mensaje) "Error desconocido") ∧
      (exitos resultados).length + (fallos resultados).length = resultados.length ∧
      notificaciones (dibujarRutasDeColectivo env opcionesDeRutaString).eventos = 1 ∧
      (dibujarRutasDeColectivo env opcionesDeRutaString).eventos.getLast?
        = some .notificarMapaTerminado ∧
      (dibujarRutasDeColectivo env opcionesDeRutaString).estado = .cumplida := by
  have hpne : promesasDeLotes ≠ [] := by
    intro h
    subst h
    have : allSettled (resultadosDeLlamadas env.red 0 ([] : List (Llamada α))) env.orden
        = some [] := allSettled_completo _ _ (by intro i hi; simp [resultadosDeLlamadas] at hi)
    rw [this] at hset
    exact hne (Option.some.inj hset).symm
  have hb := bloqueTry_con_resultados env opcionesDeRutaString opciones promesasDeLotes _
    hjson hkey hops hprom hpne hset
  obtain ⟨ha1, ha2, ha3⟩ := antesDeEsperar_limpio (opciones.getD []) promesasDeLotes
  obtain ⟨hd1, hd2, hd3⟩ := lecturas_dibujarResultados resultados
  have hcuenta := exitos_mas_fallos resultados
  have e : (dibujarRutasDeColectivo env opcionesDeRutaString) =
      { eventos := antesDeEsperar (opciones.getD []) promesasDeLotes
          ++ dibujarResultados resultados ++ [.cargadorOculto, .notificarMapaTerminado]
        estado := .cumplida } := by
    simp only [dibujarRutasDeColectivo, hb, notificaciones_bloqueFinally env hhost]
  rw [e]
  simp only [notificaciones] at ha3 hd3
  simp only [polilineas, erroresDeConsola] at ha1 ha2 hd1 hd2
  refine ⟨rfl, ?_, ?_, hcuenta, ?_, ?_, rfl⟩
  · simp [polilineas, ha1, hd1]
  · simp [erroresDeConsola, ha2, hd2]
  · simp [notificaciones, ha3, hd3]
  · simp

/-! ## Instances on the example inputs -/

/-- C2, instance: the batch of the second example option, and the loop at `i = 4` on six
stops. -/
theorem obtenerPromesasDeRuta_lotes_entre_2_y_5_testigo :
    (llamadaSegundoLote ∈ llamadasHechas (obtenerPromesasDeRuta opcionesDosLotes "clave")) ∧
      (∃ opcion : List (List (Parada Int)), some opcion ∈ opcionesDosLotes ∧
        (∃ antes despues : List (Parada Int),
          opcion.flatten = antes ++ llamadaSegundoLote.loteDeParadas ++ despues) ∧
        2 ≤ llamadaSegundoLote.loteDeParadas.length ∧
        llamadaSegundoLote.loteDeParadas.length ≤ MAX_PUNTOS_POR_LOTE) ∧
      ¬ (slice opcionSeisParadas.flatten 4 (4 + MAX_PUNTOS_POR_LOTE)).length < 2 :=
  ⟨by decide,
    (obtenerPromesasDeRuta_lotes_entre_2_y_5 opcionesDosLotes "clave").1 llamadaSegundoLote
      (by decide),
    (obtenerPromesasDeRuta_lotes_entre_2_y_5 opcionesDosLotes "clave").2
      opcionSeisParadas.flatten 4 (by decide)⟩

/-- C3, instance: the two batches of a six-stop option share position 4 only. -/
theorem lotes_consecutivos_comparten_un_punto_testigo :
    0 + 1 < (llamadasDeOpcion "clave" 0 opcionSeisParadas).length ∧
      ∃ anterior posterior : List (Parada Int),
        ((llamadasDeOpcion "clave" 0 opcionSeisParadas).map Llamada.loteDeParadas)[0]?
          = some anterior ∧
        ((llamadasDeOpcion "clave" 0 opcionSeisParadas).map Llamada.loteDeParadas)[0 + 1]?
          = some posterior ∧
        anterior = slice opcionSeisParadas.flatten (4 * 0) (4 * 0 + 5) ∧
        posterior = slice opcionSeisParadas.flatten (4 * (0 + 1)) (4 * (0 + 1) + 5) ∧
        4 * 0 + 4 < opcionSeisParadas.flatten.length ∧
        anterior.getLast? = opcionSeisParadas.flatten[4 * 0 + 4]? ∧
        posterior.head? = opcionSeisParadas.flatten[4 * 0 + 4]? ∧
        ∀ p : Nat,
          ((4 * 0 ≤ p ∧ p < 4 * 0 + anterior.length) ∧
            (4 * (0 + 1) ≤ p ∧ p < 4 * (0 + 1) + posterior.length)) ↔ p = 4 * 0 + 4 :=
  ⟨by decide, lotes_consecutivos_comparten_un_punto "clave" 0 opcionSeisParadas 0 (by decide)⟩

/-- C10, instance: a six-stop option, split into a five-point and a two-point batch. -/
theorem lotes_cubren_la_opcion_una_vez_testigo :
    2 ≤ opcionSeisParadas.flatten.length ∧
      unirLotes ((llamadasDeOpcion "clave" 0 opcionSeisParadas).map Llamada.loteDeParadas)
        = opcionSeisParadas.flatten ∧
      ∀ j : Nat, j + 1 < opcionSeisParadas.flatten.length →
        ∃! k : Nat, ∃ lote : List (Parada Int),
          ((llamadasDeOpcion "clave" 0 opcionSeisParadas).map Llamada.loteDeParadas)[k]?
            = some lote ∧
          lote = slice opcionSeisParadas.flatten (4 * k) (4 * k + 5) ∧
          4 * k ≤ j ∧ j + 1 < 4 * k + lote.length :=
  ⟨by decide, lotes_cubren_la_opcion_una_vez "clave" 0 opcionSeisParadas (by decide)⟩

/-- C5, instance: a two-stop batch against the echoing service. -/
theorem fetchLoteDeRuta_ida_y_vuelta_testigo :
    redEco 0 (peticionDeLote [(1, 2), (3, 4)] "clave") =
        .http true (.ok { message := none,
                          paths := some ((peticionDeLote [(1, 2), (3, 4)] "clave").points :: []) }) ∧
      (∀ p : Parada Int, invertir (invertir p) = p) ∧
      (peticionDeLote [((1 : Int), (2 : Int)), (3, 4)] "clave").points
        = [((1 : Int), (2 : Int)), (3, 4)].map invertir ∧
      fetchLoteDeRuta [(1, 2), (3, 4)] (estiloDeOpcion 0) "clave" (redEco 0) =
        .ok { coords := [(1, 2), (3, 4)], estilo := estiloDeOpcion 0 } :=
  ⟨rfl, fetchLoteDeRuta_ida_y_vuelta [(1, 2), (3, 4)] (estiloDeOpcion 0) "clave" (redEco 0)
    none [] rfl⟩

/-- C8, instance: a truncated payload. -/
theorem dibujarRutasDeColectivo_json_invalido_testigo :
    entornoJsonInvalido.JSON_parse "[[1,2" = .error "Unexpected end of JSON input" ∧
      entornoJsonInvalido.javaApp = true ∧
      (dibujarRutasDeColectivo entornoJsonInvalido "[[1,2").eventos =
        [.cargadorVisible, .clearLayers,
          .consoleError ("Error general al procesar rutas de colectivo: "
            ++ "Unexpected end of JSON input"),
          .cargadorOculto, .notificarMapaTerminado] ∧
      (dibujarRutasDeColectivo entornoJsonInvalido "[[1,2").estado = .cumplida ∧
      marcadores (dibujarRutasDeColectivo entornoJsonInvalido "[[1,2").eventos = [] ∧
      polilineas (dibujarRutasDeColectivo entornoJsonInvalido "[[1,2").eventos = [] ∧
      peticiones (dibujarRutasDeColectivo entornoJsonInvalido "[[1,2").eventos = [] ∧
      notificaciones (dibujarRutasDeColectivo entornoJsonInvalido "[[1,2").eventos = 1 :=
  ⟨rfl, rfl,
    dibujarRutasDeColectivo_json_invalido entornoJsonInvalido "[[1,2"
      "Unexpected end of JSON input" rfl rfl⟩

/-- C9, instance: a valid two-option payload with no credential defined. -/
theorem dibujarRutasDeColectivo_sin_credencial_testigo :
    esVerdadero entornoSinCredencial.GH_API_KEY = false ∧
      entornoSinCredencial.javaApp = true ∧
      peticiones (dibujarRutasDeColectivo entornoSinCredencial "").eventos = [] ∧
      marcadores (dibujarRutasDeColectivo entornoSinCredencial "").eventos = [] ∧
      polilineas (dibujarRutasDeColectivo entornoSinCredencial "").eventos = [] ∧
      (∀ opciones, entornoSinCredencial.JSON_parse "" = .ok opciones →
        "No se encontró GH_API_KEY." ∈
          erroresDeConsola (dibujarRutasDeColectivo entornoSinCredencial "").eventos) ∧
      notificaciones (dibujarRutasDeColectivo entornoSinCredencial "").eventos = 1 ∧
      (dibujarRutasDeColectivo entornoSinCredencial "").eventos.getLast?
        = some .notificarMapaTerminado ∧
      (dibujarRutasDeColectivo entornoSinCredencial "").estado = .cumplida :=
  ⟨rfl, rfl, dibujarRutasDeColectivo_sin_credencial entornoSinCredencial "" rfl rfl⟩

/-- C6, instance: the two-batch cycle in which the second fetch settles first. -/
theorem dibujarRutasDeColectivo_en_orden_de_envio_testigo :
    entornoDosLotes.orden = [1, 0] ∧
      (dibujarRutasDeColectivo entornoDosLotes "").eventos =
        antesDeEsperar opcionesDosLotes promesasDosLotes
          ++ dibujarResultados (resultadosDeLlamadas entornoDosLotes.red 0 promesasDosLotes)
          ++ bloqueFinally entornoDosLotes ∧
      polilineas (dibujarRutasDeColectivo entornoDosLotes "").eventos =
        exitos (resultadosDeLlamadas entornoDosLotes.red 0 promesasDosLotes) ∧
      (dibujarRutasDeColectivo entornoDosLotes "").estado = .cumplida :=
  ⟨rfl,
    dibujarRutasDeColectivo_en_orden_de_envio entornoDosLotes "" (some opcionesDosLotes)
      promesasDosLotes rfl rfl rfl rfl (by decide) (by decide)⟩

/-- C7, instance: two batches, the first succeeds and the second is refused. -/
theorem dibujarRutasDeColectivo_fallos_parciales_testigo :
    allSettled (resultadosDeLlamadas entornoExitoYFallo.red 0 promesasDosLotes)
        entornoExitoYFallo.orden = some [.ok rutaPrimerLote, .error "Too many points"] ∧
      (dibujarRutasDeColectivo entornoExitoYFallo "").eventos =
        antesDeEsperar opcionesDosLotes promesasDosLotes
          ++ dibujarResultados [.ok rutaPrimerLote, .error "Too many points"]
          ++ [.cargadorOculto, .notificarMapaTerminado] ∧
      polilineas (dibujarRutasDeColectivo entornoExitoYFallo "").eventos
        = exitos [.ok rutaPrimerLote, .error "Too many points"] ∧
      erroresDeConsola (dibujarRutasDeColectivo entornoExitoYFallo "").eventos
        = (fallos ([.ok rutaPrimerLote, .error "Too many points"] : List (Resultado Int))).map
            (fun mensaje => "Lote de ruta fallido: " ++ oSiNo (some mensaje) "Error desconocido") ∧
      (exitos ([.ok rutaPrimerLote, .error "Too many points"] : List (Resultado Int))).length
          + (fallos ([.ok rutaPrimerLote, .error "Too many points"] : List (Resultado Int))).length
        = ([.ok rutaPrimerLote, .error "Too many points"] : List (Resultado Int)).length ∧
      notificaciones (dibujarRutasDeColectivo entornoExitoYFallo "").eventos = 1 ∧
      (dibujarRutasDeColectivo entornoExitoYFallo "").eventos.getLast?
        = some .notificarMapaTerminado ∧
      (dibujarRutasDeColectivo entornoExitoYFallo "").estado = .cumplida :=
  ⟨rfl,
    dibujarRutasDeColectivo_fallos_parciales entornoExitoYFallo "" (some opcionesDosLotes)
      promesasDosLotes [.ok rutaPrimerLote, .error "Too many points"] rfl rfl rfl rfl rfl
      (by simp) rfl⟩

end Mapa
